import Mathlib

/-!
Verification of the NFC-Vinyl-JukeBox firmware (`src/main.py`).

The development shallowly embeds the two algorithmic pieces of the source:

* the DFPlayer Mini command encoder (`DFPlayerMini._send_command` and its
  wrappers `reset`, `set_volume`, `play_track`), and
* the tag-presence debounce logic of the `main` polling loop.

Python machine-independent integers are modelled as `Nat`/`Int` with explicit
masks where the code masks.  Byte strings (tag UIDs, frames) are `List Nat`.
Effects of one loop iteration (prints, UART writes, sleeps) are reified as a
list of `Effect` values, in the order the source performs them.
-/

namespace JukeBox

/-- A tag UID: a byte sequence (each entry `< 256` in the real system). -/
abbrev Uid := List Nat

/-! ## Command encoder (`DFPlayerMini._send_command`, src/main.py lines 49–86) -/

/-- The 10-byte frame built by `_send_command(cmd, param)`.

Source (lines 64–85):
```
version = 0xFF; length = 0x06; feedback = 0x00
high = (param >> 8) & 0xFF
low  = param & 0xFF
checksum = 0xFFFF - (version + length + cmd + feedback + high + low) + 1
cs_high = (checksum >> 8) & 0xFF
cs_low  = checksum & 0xFF
frame = bytes([0x7E, version, length, cmd, feedback, high, low, cs_high, cs_low, 0xEF])
```
`checksum` is a plain Python integer (it may in principle be negative for huge
`cmd`); Python's arithmetic right shift and bitwise mask on a signed integer
satisfy `(x >> 8) & 0xFF = ((x mod 2^16) div 2^8)` and
`x & 0xFF = (x mod 2^16) mod 2^8` for every integer `x`, so we take the
Euclidean residue `cs16 = checksum % 65536` first and mask the nonnegative
result exactly as the source does. -/
def sendCommand (cmd : Nat) (param : Nat) : List Nat :=
  let version := 0xFF
  let length := 0x06
  let feedback := 0x00
  let high := (param >>> 8) &&& 0xFF
  let low := param &&& 0xFF
  let checksum : Int := 0xFFFF - ((version + length + cmd + feedback + high + low : Nat) : Int) + 1
  let cs16 : Nat := (checksum % 65536).toNat
  let cs_high := (cs16 >>> 8) &&& 0xFF
  let cs_low := cs16 &&& 0xFF
  [0x7E, version, length, cmd, feedback, high, low, cs_high, cs_low, 0xEF]

/-- `DFPlayerMini.reset` (lines 88–91): `_send_command(0x0C, 0)`. -/
def resetFrame : List Nat := sendCommand 0x0C 0

/-- `DFPlayerMini.set_volume` (lines 93–101): clamp the level into `[0, 30]`
with two successive `if`s, then `_send_command(0x06, level)`.  The level is a
Python integer, hence `Int`; after clamping it is nonnegative, so `toNat` is
exact. -/
def setVolumeFrame (level : Int) : List Nat :=
  let level := if level < 0 then (0 : Int) else level
  let level := if level > 30 then (30 : Int) else level
  sendCommand 0x06 level.toNat

/-- `DFPlayerMini.play_track` (lines 103–111): clamp the track number to a
minimum of 1, then `_send_command(0x03, track_number)`.  After clamping the
value is positive, so `toNat` is exact. -/
def playTrackFrame (trackNumber : Int) : List Nat :=
  let t := if trackNumber < 1 then (1 : Int) else trackNumber
  sendCommand 0x03 t.toNat

/-! ## UID rendering (`uid_bytes_to_hex`, lines 166–168) -/

/-- Upper-case hex digit for `n < 16` (`'0'`–`'9'`, `'A'`–`'F'`). -/
def hexChar (n : Nat) : Char :=
  if n < 10 then Char.ofNat (48 + n) else Char.ofNat (55 + n)

/-- Python's `"{:02X}".format(b)` for a byte `0 ≤ b < 256`: exactly two
upper-case hex digits. -/
def fmt02X (b : Nat) : String :=
  String.mk [hexChar (b / 16 % 16), hexChar (b % 16)]

/-- `uid_bytes_to_hex(uid_bytes)`: `"".join("{:02X}".format(b) for b in uid_bytes)`. -/
def uidBytesToHex (uidBytes : Uid) : String :=
  String.join (uidBytes.map fmt02X)

/-! ## Main loop iteration (lines 179–207) -/

/-- Debouncer-level events.  `arrived u` corresponds to the new-card branch
(line 194 onwards, executed with the fresh `uid` in scope); `removed u`
corresponds to the removal branch (lines 185–187, executed with the previous
`last_uid = u` in scope). -/
inductive TagEvent where
  | arrived (u : Uid)
  | removed (u : Uid)
  deriving DecidableEq, Repr

/-- Observable side effects of one loop iteration, in source order. -/
inductive Effect where
  | printTagRemoved                       -- line 186
  | printTagDetected (uidStr : String)    -- line 197
  | printNoTrack                          -- line 201
  | printPlaying (track : Int)            -- line 203
  | writeFrame (frame : List Nat)         -- uart.write inside play_track
  | sleepDebounce                         -- line 207, time.sleep(0.3)
  deriving DecidableEq, Repr

/-- One iteration of the `while True` loop (lines 179–207), parameterised by
the `TAG_TO_TRACK` mapping (an association list standing for the Python dict)
and the current `last_uid` state.  Returns the next `last_uid`, the debounce
events of the iteration, and the effect trace.

Branches:
* `uid is None` (lines 183–188): print and clear `last_uid` if it was set,
  then `continue` — note no debounce sleep on this path;
* same card (lines 191–192): `continue` — no event, no sleep;
* new card (lines 194–207): remember the UID, print it, look it up, either
  report a missing mapping or play the track, then sleep. -/
def mainStep (tagToTrack : List (String × Int)) (lastUid : Option Uid)
    (uid : Option Uid) : Option Uid × List TagEvent × List Effect :=
  match uid with
  | none =>
      match lastUid with
      | some last => (none, [.removed last], [.printTagRemoved])
      | none => (none, [], [])
  | some u =>
      if lastUid = some u then
        (lastUid, [], [])
      else
        let uidStr := uidBytesToHex u
        let actions : List Effect :=
          match tagToTrack.lookup uidStr with
          | none => [.printNoTrack]
          | some track => [.printPlaying track, .writeFrame (playTrackFrame track)]
        (some u, [.arrived u],
          [.printTagDetected uidStr] ++ actions ++ [.sleepDebounce])

/-- Iterating `mainStep` over a finite sequence of poll results, concatenating
events and effects in order. -/
def mainRun (tagToTrack : List (String × Int)) (lastUid : Option Uid) :
    List (Option Uid) → Option Uid × List TagEvent × List Effect
  | [] => (lastUid, [], [])
  | uid :: rest =>
      let r1 := mainStep tagToTrack lastUid uid
      let r2 := mainRun tagToTrack r1.1 rest
      (r2.1, r1.2.1 ++ r2.2.1, r1.2.2 ++ r2.2.2)

/-- The frames written to the UART within an effect trace. -/
def writtenFrames (effs : List Effect) : List (List Nat) :=
  effs.filterMap fun e =>
    match e with
    | .writeFrame f => some f
    | _ => none

/-! ## Helper lemmas -/

theorem and_255_eq_mod (n : Nat) : n &&& 255 = n % 256 := by
  have h := Nat.and_pow_two_sub_one_eq_mod n 8
  norm_num at h
  exact h

theorem shiftRight8_eq_div (n : Nat) : n >>> 8 = n / 256 := by
  have h := Nat.shiftRight_eq_div_pow n 8
  norm_num at h
  exact h

/-- Closed form of the emitted frame for a byte-valued command code: the
checksum is the plain natural number `0x10000 - S` (where `S` is the payload
sum), split big-endian. -/
theorem sendCommand_eq (cmd param : Nat) (hcmd : cmd ≤ 0xFF) :
    sendCommand cmd param =
      [0x7E, 0xFF, 0x06, cmd, 0x00, param / 256 % 256, param % 256,
       (65536 - (0xFF + 0x06 + cmd + 0x00 + param / 256 % 256 + param % 256)) / 256,
       (65536 - (0xFF + 0x06 + cmd + 0x00 + param / 256 % 256 + param % 256)) % 256,
       0xEF] := by
  unfold sendCommand
  simp only [and_255_eq_mod, shiftRight8_eq_div, List.cons.injEq, and_true, true_and]
  constructor <;> omega

/-- `sendCommand` depends on the command code and the parameter only, so the
wrapper frames are instances of the closed form. -/
theorem setVolumeFrame_eq (level : Int) :
    setVolumeFrame level = sendCommand 0x06 (max 0 (min 30 level)).toNat := by
  simp only [setVolumeFrame]
  congr 1
  rw [max_def, min_def]
  split_ifs <;> omega

theorem playTrackFrame_eq (track : Int) :
    playTrackFrame track = sendCommand 0x03 (max 1 track).toNat := by
  simp only [playTrackFrame]
  congr 1
  rw [max_def]
  split_ifs <;> omega

/-! ## Claim theorems -/

/-- C1: for every byte-valued command code and every 16-bit parameter, the six
payload bytes of the produced frame (version, length, command, feedback,
param-high, param-low) plus the two emitted checksum bytes sum to `0` modulo
`65536`; equivalently, the emitted 16-bit checksum (high·256 + low) equals
`0xFFFF − payload-sum + 1` truncated to 16 bits. -/
theorem checksum_complements_payload (cmd param : Nat)
    (hcmd : cmd ≤ 0xFF) (hparam : param < 65536) :
    ((sendCommand cmd param)[1]! + (sendCommand cmd param)[2]!
      + (sendCommand cmd param)[3]! + (sendCommand cmd param)[4]!
      + (sendCommand cmd param)[5]! + (sendCommand cmd param)[6]!
      + (sendCommand cmd param)[7]! * 256 + (sendCommand cmd param)[8]!) % 65536 = 0
    ∧ (sendCommand cmd param)[7]! * 256 + (sendCommand cmd param)[8]!
        = (0xFFFF - ((sendCommand cmd param)[1]! + (sendCommand cmd param)[2]!
            + (sendCommand cmd param)[3]! + (sendCommand cmd param)[4]!
            + (sendCommand cmd param)[5]! + (sendCommand cmd param)[6]!) + 1) % 65536 := by
  rw [sendCommand_eq cmd param hcmd]
  simp
  omega

/-- Witness for C1 at `cmd = 0x03`, `param = 3`. -/
theorem checksum_complements_payload_witness :
    ((0x03 : Nat) ≤ 0xFF ∧ (3 : Nat) < 65536)
    ∧ (((sendCommand 0x03 3)[1]! + (sendCommand 0x03 3)[2]!
      + (sendCommand 0x03 3)[3]! + (sendCommand 0x03 3)[4]!
      + (sendCommand 0x03 3)[5]! + (sendCommand 0x03 3)[6]!
      + (sendCommand 0x03 3)[7]! * 256 + (sendCommand 0x03 3)[8]!) % 65536 = 0
    ∧ (sendCommand 0x03 3)[7]! * 256 + (sendCommand 0x03 3)[8]!
        = (0xFFFF - ((sendCommand 0x03 3)[1]! + (sendCommand 0x03 3)[2]!
            + (sendCommand 0x03 3)[3]! + (sendCommand 0x03 3)[4]!
            + (sendCommand 0x03 3)[5]! + (sendCommand 0x03 3)[6]!) + 1) % 65536) :=
  ⟨⟨by decide, by decide⟩,
    checksum_complements_payload 0x03 3 (by decide) (by decide)⟩

/-- C2: every frame produced through the encoder (Reset, SetVolume with any
level, PlayTrack with any index) is exactly 10 bytes: byte 0 = `0x7E`,
byte 1 = `0xFF`, byte 2 = `0x06`, byte 3 = the command code (Reset `0x0C`,
SetVolume `0x06`, PlayTrack `0x03`), byte 4 = `0x00`, bytes 5–6 = the
(clamped) parameter split big-endian, byte 9 = `0xEF`. -/
theorem frame_wire_format (level track : Int) :
    (resetFrame.length = 10 ∧ resetFrame[0]! = 0x7E ∧ resetFrame[1]! = 0xFF
      ∧ resetFrame[2]! = 0x06 ∧ resetFrame[3]! = 0x0C ∧ resetFrame[4]! = 0x00
      ∧ resetFrame[5]! = 0 ∧ resetFrame[6]! = 0 ∧ resetFrame[9]! = 0xEF)
    ∧ ((setVolumeFrame level).length = 10 ∧ (setVolumeFrame level)[0]! = 0x7E
      ∧ (setVolumeFrame level)[1]! = 0xFF ∧ (setVolumeFrame level)[2]! = 0x06
      ∧ (setVolumeFrame level)[3]! = 0x06 ∧ (setVolumeFrame level)[4]! = 0x00
      ∧ (setVolumeFrame level)[5]! = (max 0 (min 30 level)).toNat / 256 % 256
      ∧ (setVolumeFrame level)[6]! = (max 0 (min 30 level)).toNat % 256
      ∧ (setVolumeFrame level)[9]! = 0xEF)
    ∧ ((playTrackFrame track).length = 10 ∧ (playTrackFrame track)[0]! = 0x7E
      ∧ (playTrackFrame track)[1]! = 0xFF ∧ (playTrackFrame track)[2]! = 0x06
      ∧ (playTrackFrame track)[3]! = 0x03 ∧ (playTrackFrame track)[4]! = 0x00
      ∧ (playTrackFrame track)[5]! = (max 1 track).toNat / 256 % 256
      ∧ (playTrackFrame track)[6]! = (max 1 track).toNat % 256
      ∧ (playTrackFrame track)[9]! = 0xEF) := by
  rw [resetFrame, setVolumeFrame_eq, playTrackFrame_eq,
    sendCommand_eq 0x0C 0 (by norm_num), sendCommand_eq 0x06 _ (by norm_num),
    sendCommand_eq 0x03 _ (by norm_num)]
  simp

/-- C9: the encoder's clamping equations — `SetVolume (-5)` and `SetVolume 99`
encode like `SetVolume 0` and `SetVolume 30`, `PlayTrack 0` like `PlayTrack 1`,
and in general the SetVolume level is clamped into `[0, 30]` and the PlayTrack
index is clamped to a minimum of `1`. -/
theorem encoder_clamping (level track : Int) :
    setVolumeFrame (-5) = setVolumeFrame 0
    ∧ setVolumeFrame 99 = setVolumeFrame 30
    ∧ playTrackFrame 0 = playTrackFrame 1
    ∧ setVolumeFrame level = sendCommand 0x06 (max 0 (min 30 level)).toNat
    ∧ playTrackFrame track = sendCommand 0x03 (max 1 track).toNat :=
  ⟨by decide, by decide, by decide, setVolumeFrame_eq level, playTrackFrame_eq track⟩

/-- C10: for every PlayTrack index above 65535 the encoder neither fails nor
clamps at the upper end: the frame is a valid 10-byte frame whose parameter
bytes are `(index >> 8) & 0xFF` and `index & 0xFF`, i.e. the index reduced
modulo 65536 in big-endian. -/
theorem playTrack_wraps_mod_65536 (track : Int) (h : 65535 < track) :
    (playTrackFrame track).length = 10
    ∧ (∀ b ∈ playTrackFrame track, b < 256)
    ∧ (playTrackFrame track)[5]! = (track.toNat >>> 8) &&& 0xFF
    ∧ (playTrackFrame track)[6]! = track.toNat &&& 0xFF
    ∧ (playTrackFrame track)[5]! * 256 + (playTrackFrame track)[6]!
        = track.toNat % 65536 := by
  have hmax : max 1 track = track := max_eq_right (by omega)
  rw [playTrackFrame_eq, hmax, sendCommand_eq 0x03 _ (by norm_num)]
  simp [and_255_eq_mod, shiftRight8_eq_div]
  omega

/-- A contiguous run of polls of one already-present tag leaves the state and
produces no events and no effects (lines 191–192: `continue`). -/
theorem mainRun_replicate_same (m : List (String × Int)) (u : Uid) (n : Nat) :
    mainRun m (some u) (List.replicate n (some u)) = (some u, [], []) := by
  induction n with
  | zero => rfl
  | succ k ih => simp [List.replicate_succ, mainRun, mainStep, ih]

/-- C3: with the mapping table `{"04AABBCCDD11" ↦ 3}` and the poll sequence
`[None, Some id, Some id, None]` for the tag with that identifier, the loop
transmits exactly one frame, namely `7E FF 06 03 00 00 03 FE F5 EF`. -/
theorem end_to_end_scenario :
    writtenFrames (mainRun [("04AABBCCDD11", 3)] none
        [none, some [0x04, 0xAA, 0xBB, 0xCC, 0xDD, 0x11],
         some [0x04, 0xAA, 0xBB, 0xCC, 0xDD, 0x11], none]).2.2
      = [[0x7E, 0xFF, 0x06, 0x03, 0x00, 0x00, 0x03, 0xFE, 0xF5, 0xEF]] := by
  decide

/-- C4: the debouncer emits at most one arrival per contiguous run of
identical `some`-samples — a run of `n + 1` polls of tag `u`, started in any
state, emits no event when `u` was already present and exactly `TagArrived u`
otherwise; in particular `[Some A, Some A, Some A]` from idle yields exactly
one `TagArrived A` and nothing else. -/
theorem debounce_at_most_one_arrival :
    (∀ (m : List (String × Int)) (st : Option Uid) (u : Uid) (n : Nat),
        (mainRun m st (List.replicate (n + 1) (some u))).2.1
          = if st = some u then [] else [TagEvent.arrived u])
    ∧ ∀ (m : List (String × Int)) (A : Uid),
        (mainRun m none [some A, some A, some A]).2.1 = [TagEvent.arrived A] := by
  constructor
  · intro m st u n
    by_cases h : st = some u
    · subst h
      simp [mainRun_replicate_same]
    · simp [List.replicate_succ, mainRun, mainStep, h, mainRun_replicate_same]
  · intro m A
    have h := mainRun_replicate_same m A 2
    simp only [List.replicate] at h
    simp [mainRun, mainStep, h]

/-- C5: from the idle state, `[Some A, None]` yields exactly `TagArrived A`
followed by `TagRemoved A` and returns the debouncer to idle
(`last_uid = None`). -/
theorem arrival_then_removal (m : List (String × Int)) (A : Uid) :
    (mainRun m none [some A, none]).2.1 = [TagEvent.arrived A, TagEvent.removed A]
    ∧ (mainRun m none [some A, none]).1 = none := by
  simp [mainRun, mainStep]

/-- C6: from the idle state, `[Some A, Some B]` with `A ≠ B` yields exactly
`TagArrived A` then `TagArrived B` — no removal is synthesized in between —
and leaves the debouncer in `Present B`. -/
theorem swap_without_removal (m : List (String × Int)) (A B : Uid) (hAB : A ≠ B) :
    (mainRun m none [some A, some B]).2.1 = [TagEvent.arrived A, TagEvent.arrived B]
    ∧ (mainRun m none [some A, some B]).1 = some B := by
  simp [mainRun, mainStep, hAB]

/-- Witness for C6 with `A = [0]`, `B = [1]`. -/
theorem swap_without_removal_witness :
    ([0] : Uid) ≠ [1]
    ∧ ((mainRun [] none [some [0], some [1]]).2.1
          = [TagEvent.arrived [0], TagEvent.arrived [1]]
      ∧ (mainRun [] none [some [0], some [1]]).1 = some [1]) :=
  ⟨by decide, swap_without_removal [] [0] [1] (by decide)⟩

/-- C7, counterexample: the claim says the fixed debounce pause runs after
every poll, regardless of outcome; but in an iteration that observes no tag
from the idle state the loop `continue`s before `time.sleep(0.3)` and no
debounce sleep occurs. -/
theorem no_sleep_on_empty_poll :
    Effect.sleepDebounce ∉ (mainStep [] none none).2.2 := by
  decide

/-- C7, amended: the debounce pause is applied exactly in the iterations that
detect a new tag (the poll returns a tag other than the remembered one);
no-tag and same-tag iterations skip it via `continue`. -/
theorem sleep_exactly_on_new_tag (m : List (String × Int)) (st : Option Uid)
    (uid : Option Uid) :
    Effect.sleepDebounce ∈ (mainStep m st uid).2.2
      ↔ ∃ u, uid = some u ∧ st ≠ some u := by
  cases uid with
  | none => cases st <;> simp [mainStep]
  | some u =>
      by_cases h : st = some u
      · simp [mainStep, h]
      · rcases hm : m.lookup (uidBytesToHex u) with _ | t <;>
          simp [mainStep, h, hm]

/-- C8: a newly arrived tag with no entry in the track map transmits nothing,
produces the "no mapping" notice, and is still recorded as present, so the
same tag triggers no event and no effect on the next poll. -/
theorem unmapped_tag_no_frame (m : List (String × Int)) (st : Option Uid)
    (u : Uid) (hnew : st ≠ some u)
    (hmiss : m.lookup (uidBytesToHex u) = none) :
    (mainStep m st (some u)).1 = some u
    ∧ (∀ f, Effect.writeFrame f ∉ (mainStep m st (some u)).2.2)
    ∧ Effect.printNoTrack ∈ (mainStep m st (some u)).2.2
    ∧ (mainStep m (mainStep m st (some u)).1 (some u)).2.1 = []
    ∧ (mainStep m (mainStep m st (some u)).1 (some u)).2.2 = [] := by
  simp [mainStep, hnew, hmiss]

/-- Witness for C8 with an empty track map and tag `[1]`. -/
theorem unmapped_tag_no_frame_witness :
    ((none : Option Uid) ≠ some [1]
      ∧ ([] : List (String × Int)).lookup (uidBytesToHex [1]) = none)
    ∧ ((mainStep [] none (some [1])).1 = some [1]
      ∧ (∀ f, Effect.writeFrame f ∉ (mainStep [] none (some [1])).2.2)
      ∧ Effect.printNoTrack ∈ (mainStep [] none (some [1])).2.2
      ∧ (mainStep [] (mainStep [] none (some [1])).1 (some [1])).2.1 = []
      ∧ (mainStep [] (mainStep [] none (some [1])).1 (some [1])).2.2 = []) :=
  ⟨⟨by decide, rfl⟩, unmapped_tag_no_frame [] none [1] (by decide) rfl⟩

/-- Witness for C10 at index 70000 (= 0x11170; wraps to 0x1170). -/
theorem playTrack_wraps_mod_65536_witness :
    (65535 : Int) < 70000
    ∧ ((playTrackFrame 70000).length = 10
      ∧ (∀ b ∈ playTrackFrame 70000, b < 256)
      ∧ (playTrackFrame 70000)[5]! = ((70000 : Int).toNat >>> 8) &&& 0xFF
      ∧ (playTrackFrame 70000)[6]! = (70000 : Int).toNat &&& 0xFF
      ∧ (playTrackFrame 70000)[5]! * 256 + (playTrackFrame 70000)[6]!
          = (70000 : Int).toNat % 65536) :=
  ⟨by decide, playTrack_wraps_mod_65536 70000 (by decide)⟩

end JukeBox
